import Mathlib

/-!
Verification development for the pulse-server HTTP framework.

The definitions below are shallow embeddings of the TypeScript source:
`matchRoute` and the route types come from `src/route.ts`; the route table,
dispatch loop, middleware pipeline, response helpers (`send`, `paginate`),
rate limiter, IP gate and the WebSocket connection registry come from the
`PulseServer` class in `server.ts`.  Handlers are represented by opaque
numeric identifiers; the observable effect of a request is captured by an
`Outcome` value (status code and body written, user handler reached, or no
response at all).  JavaScript string primitives (`split`, `startsWith`,
`slice`, `includes`, `endsWith`) are modelled by kernel-reducible functions
over the character list of a `String`.
-/

set_option maxRecDepth 8000

namespace Pulse

/-! ## JavaScript string primitives -/

/-- JS `s.split(c)` for a single-character separator, via the character list. -/
def splitCharAux (c : Char) : List Char → List Char → List String
  | [], cur => [String.mk cur.reverse]
  | x :: xs, cur =>
    if x = c then String.mk cur.reverse :: splitCharAux c xs []
    else splitCharAux c xs (x :: cur)

/-- JS `s.split(c)`: `''.split('/') = ['']`, `'/a'.split('/') = ['', 'a']`. -/
def splitChar (c : Char) (s : String) : List String :=
  splitCharAux c s.data []

/-- JS `s.startsWith(':')` for the one-character prefix used by routes. -/
def startsWithColon (s : String) : Bool :=
  match s.data with
  | [] => false
  | c :: _ => c = ':'

/-- JS `s.slice(1)`: drop the first character. -/
def dropFirst (s : String) : String :=
  String.mk s.data.tail

def listPrefixOf : List Char → List Char → Bool
  | [], _ => true
  | _ :: _, [] => false
  | a :: as, b :: bs => a = b && listPrefixOf as bs

def listInfixOf (needle : List Char) : List Char → Bool
  | [] => listPrefixOf needle []
  | b :: bs => listPrefixOf needle (b :: bs) || listInfixOf needle bs

/-- JS `s.includes(sub)`. -/
def strIncludes (s sub : String) : Bool :=
  listInfixOf sub.data s.data

/-- JS `s.endsWith(sub)`. -/
def strEndsWith (s sub : String) : Bool :=
  listPrefixOf sub.data.reverse s.data.reverse

/-! ## Parameter maps (JS object with string keys, insertion order) -/

/-- JS `params[k] = v`: overwrite the value if the key exists (keeping its
position), otherwise append the new key at the end. -/
def setParam : List (String × String) → String → String → List (String × String)
  | [], k, v => [(k, v)]
  | (k0, v0) :: rest, k, v =>
    if k0 = k then (k0, v) :: rest else (k0, v0) :: setParam rest k v

/-- JS `params[k]` as an optional value. -/
def lookupParam : List (String × String) → String → Option String
  | [], _ => none
  | (k0, v0) :: rest, k => if k0 = k then some v0 else lookupParam rest k

/-- JS object spread `{ ...old, ...new }`. -/
def mergeParams (old new : List (String × String)) : List (String × String) :=
  new.foldl (fun acc kv => setParam acc kv.1 kv.2) old

/-! ## Route patterns and `matchRoute` (src/route.ts) -/

structure PulseRoutePattern where
  original : String
  segments : List String
deriving Repr, DecidableEq

/-- Pattern construction as done by `addRoute`: the versioned path together
with its `split('/')` segments. -/
def mkPattern (versionedPath : String) : PulseRoutePattern :=
  { original := versionedPath, segments := splitChar '/' versionedPath }

/-- The pairwise segment walk of `matchRoute`: a `:`-prefixed template
segment binds its name to the concrete segment, a literal template segment
must be equal to the concrete segment or the whole match fails. -/
def matchSegments : List String → List String → List (String × String) →
    Option (List (String × String))
  | [], [], params => some params
  | p :: ps, u :: us, params =>
    if startsWithColon p then
      matchSegments ps us (setParam params (dropFirst p) u)
    else if p = u then
      matchSegments ps us params
    else
      none
  | _, _, _ => none

/-- The function `matchRoute(pattern, urlPath)` from src/route.ts: split the URL on `/`,
fail if the segment counts differ, else walk the segments pairwise. -/
def matchRoute (pattern : PulseRoutePattern) (urlPath : String) :
    Option (List (String × String)) :=
  let urlSegments := splitChar '/' urlPath
  if pattern.segments.length ≠ urlSegments.length then none
  else matchSegments pattern.segments urlSegments []

/-! Specification-side characterisation of `matchRoute`, used to state C4. -/

/-- Every literal (non-parameter) template segment equals its concrete
segment. -/
def literalsOk (ps us : List String) : Bool :=
  (ps.zip us).all (fun pr => startsWithColon pr.1 || pr.1 = pr.2)

/-- The bindings produced by walking the zipped segments, starting from an
accumulator. -/
def bindAux (ps us : List String) (acc : List (String × String)) :
    List (String × String) :=
  (ps.zip us).foldl
    (fun a pr => if startsWithColon pr.1 then setParam a (dropFirst pr.1) pr.2 else a)
    acc

/-- The bindings of a successful match: each `:`-segment's name mapped to the
raw concrete segment, later bindings overwriting earlier ones of the same
name. -/
def specBindings (ps us : List String) : List (String × String) :=
  bindAux ps us []

theorem matchSegments_characterisation (ps : List String) :
    ∀ (us : List String) (acc : List (String × String)),
      ps.length = us.length →
      matchSegments ps us acc =
        if literalsOk ps us then some (bindAux ps us acc) else none := by
  induction ps with
  | nil =>
    intro us acc h
    cases us with
    | nil => simp [matchSegments, literalsOk, bindAux]
    | cons u us => simp at h
  | cons p ps ih =>
    intro us acc h
    cases us with
    | nil => simp at h
    | cons u us =>
      simp only [List.length_cons, Nat.succ.injEq] at h
      by_cases hp : startsWithColon p
      · have hc : literalsOk (p :: ps) (u :: us) = literalsOk ps us := by
          simp [literalsOk, hp]
        have hb : bindAux (p :: ps) (u :: us) acc =
            bindAux ps us (setParam acc (dropFirst p) u) := by
          simp [bindAux, hp]
        rw [show matchSegments (p :: ps) (u :: us) acc =
              matchSegments ps us (setParam acc (dropFirst p) u) by
            simp [matchSegments, hp]]
        rw [ih us _ h, hc, hb]
      · by_cases he : p = u
        · subst he
          have hc : literalsOk (p :: ps) (p :: us) = literalsOk ps us := by
            simp [literalsOk, hp]
          have hb : bindAux (p :: ps) (p :: us) acc = bindAux ps us acc := by
            simp [bindAux, hp]
          rw [show matchSegments (p :: ps) (p :: us) acc = matchSegments ps us acc by
                simp [matchSegments, hp]]
          rw [ih us _ h, hc, hb]
        · have hc : literalsOk (p :: ps) (u :: us) = false := by
            simp [literalsOk, hp, he]
          rw [show matchSegments (p :: ps) (u :: us) acc = none by
                simp [matchSegments, hp, he]]
          rw [hc]
          simp

theorem matchRoute_eq (pattern : PulseRoutePattern) (urlPath : String) :
    matchRoute pattern urlPath =
      if pattern.segments.length = (splitChar '/' urlPath).length then
        (if literalsOk pattern.segments (splitChar '/' urlPath) then
          some (specBindings pattern.segments (splitChar '/' urlPath)) else none)
      else none := by
  unfold matchRoute specBindings
  by_cases h : pattern.segments.length = (splitChar '/' urlPath).length
  · simp [h, matchSegments_characterisation pattern.segments _ [] h]
  · simp [h]

/-- C4: `matchRoute` returns no match whenever the template's segment count
differs from the path's segment count; otherwise it walks the segments
pairwise, a match succeeds if and only if every non-parameter template
segment equals the concrete segment exactly (case-sensitively), and a
successful match binds each `:`-prefixed segment's name to the concrete
segment's literal string value with no coercion (`specBindings`).  The
embedding is a pure function, so the operation has no side effects. -/
theorem C4_matchRoute_contract (pattern : PulseRoutePattern) (urlPath : String) :
    (pattern.segments.length ≠ (splitChar '/' urlPath).length →
      matchRoute pattern urlPath = none) ∧
    ((matchRoute pattern urlPath).isSome ↔
      (pattern.segments.length = (splitChar '/' urlPath).length ∧
        literalsOk pattern.segments (splitChar '/' urlPath) = true)) ∧
    (∀ ps, matchRoute pattern urlPath = some ps →
      ps = specBindings pattern.segments (splitChar '/' urlPath)) := by
  rw [matchRoute_eq pattern urlPath]
  refine ⟨?_, ?_, ?_⟩
  · intro h
    simp [h]
  · by_cases h : pattern.segments.length = (splitChar '/' urlPath).length
    · by_cases hl : literalsOk pattern.segments (splitChar '/' urlPath)
      · simp [h, hl]
      · simp [h, hl]
    · simp [h]
  · intro ps hps
    by_cases h : pattern.segments.length = (splitChar '/' urlPath).length
    · by_cases hl : literalsOk pattern.segments (splitChar '/' urlPath)
      · simp [h, hl] at hps
        exact hps.symm
      · simp [h, hl] at hps
    · simp [h] at hps

theorem C4_matchRoute_contract_witness :
    matchRoute (mkPattern "v1/login/:id") "/login" = none ∧
    (matchRoute (mkPattern "/login/:id") "/login/42").isSome ∧
    [("id", "42")] = specBindings (mkPattern "/login/:id").segments
      (splitChar '/' "/login/42") :=
  ⟨(C4_matchRoute_contract (mkPattern "v1/login/:id") "/login").1 (by decide),
   ((C4_matchRoute_contract (mkPattern "/login/:id") "/login/42").2.1).mpr (by decide),
   (C4_matchRoute_contract (mkPattern "/login/:id") "/login/42").2.2
     [("id", "42")] (by decide)⟩

/-! ## A small JSON value model and `JSON.stringify` -/

inductive Json where
  | str (s : String)
  | num (n : Int)
  | bool (b : Bool)
  | null
  | arr (xs : List Json)
  | obj (fields : List (String × Json))
deriving Repr

/-- The `JSON.stringify` escaping for the characters exercised here. -/
def jsonEscapeChar (c : Char) : String :=
  if c = '"' then "\\\"" else if c = '\\' then "\\\\" else String.mk [c]

def jsonEscape (s : String) : String :=
  String.join (s.data.map jsonEscapeChar)

/-- Decimal digits of a natural number (kernel-reducible). -/
def natDigits : Nat → List Char
  | 0 => []
  | n + 1 =>
    natDigits ((n + 1) / 10) ++
      [Char.ofNat (48 + (n + 1) % 10)]
decreasing_by exact Nat.div_lt_self (Nat.succ_pos n) (by decide)

def natToString (n : Nat) : String :=
  if n = 0 then "0" else String.mk (natDigits n)

/-- JSON serialisation of an integer. -/
def intToString (i : Int) : String :=
  match i with
  | Int.ofNat n => natToString n
  | Int.negSucc n => "-" ++ natToString (n + 1)

mutual

def Json.stringify : Json → String
  | .str s => "\"" ++ jsonEscape s ++ "\""
  | .num n => intToString n
  | .bool b => if b then "true" else "false"
  | .null => "null"
  | .arr xs => "[" ++ stringifyElems xs ++ "]"
  | .obj fs => "\x7b" ++ stringifyFields fs ++ "\x7d"

def stringifyElems : List Json → String
  | [] => ""
  | [x] => Json.stringify x
  | x :: y :: xs => Json.stringify x ++ "," ++ stringifyElems (y :: xs)

def stringifyFields : List (String × Json) → String
  | [] => ""
  | [(k, v)] => "\"" ++ jsonEscape k ++ "\":" ++ Json.stringify v
  | (k, v) :: f :: fs =>
    "\"" ++ jsonEscape k ++ "\":" ++ Json.stringify v ++ "," ++
      stringifyFields (f :: fs)

end

/-! ## The response wrapper: `res.send` (createPulseResponse) -/

/-- The observable result of a response helper: the status code set, the
`Content-Type` header set (if any), and the body passed to `res.end`. -/
structure SendOutcome where
  statusCode : Nat := 200
  contentType : Option String := none
  body : String
deriving Repr, DecidableEq

/-- A payload passed to `res.send`.  Arrays and plain objects carry their
JSON content, or `none` when `JSON.stringify` would throw on them (circular
references); a Buffer carries its bytes. -/
inductive SendPayload where
  | str (s : String)
  | arr (content : Option (List Json))
  | obj (content : Option (List (String × Json)))
  | buf (bytes : List Nat)
deriving Repr

/-- JS `typeof data === 'object'`: true for arrays, plain objects and
Buffers alike. -/
def typeofIsObject : SendPayload → Bool
  | .str _ => false
  | .arr _ => true
  | .obj _ => true
  | .buf _ => true

def payloadIsArray : SendPayload → Bool
  | .arr _ => true
  | _ => false

def typeofIsString : SendPayload → Bool
  | .str _ => true
  | _ => false

def payloadIsBuffer : SendPayload → Bool
  | .buf _ => true
  | _ => false

def payloadStrVal : SendPayload → String
  | .str s => s
  | _ => ""

/-- Node's `Buffer.prototype.toJSON`, as used by `JSON.stringify(buffer)`. -/
def bufferJson (bytes : List Nat) : Json :=
  Json.obj [("type", Json.str "Buffer"), ("data", Json.arr (bytes.map (fun b => Json.num (Int.ofNat b))))]

/-- Serialisation `JSON.stringify(data)` on a `send` payload: `none` models a thrown
serialisation error. -/
def stringifyPayload : SendPayload → Option String
  | .str s => some (Json.str s).stringify
  | .arr none => none
  | .arr (some xs) => some (Json.arr xs).stringify
  | .obj none => none
  | .obj (some fs) => some (Json.obj fs).stringify
  | .buf bytes => some (bufferJson bytes).stringify

/-- The helper `res.send(data)` from `createPulseResponse`: objects (which in JS
includes arrays and Buffers) are serialised as JSON with content type
`application/json` (500 on serialisation failure); strings are sent
verbatim as `text/plain`; the `Buffer.isBuffer` branch follows those two
tests.  `none` means no branch fired and nothing was written. -/
def send (data : SendPayload) : Option SendOutcome :=
  if typeofIsObject data || payloadIsArray data then
    match stringifyPayload data with
    | none => some { statusCode := 500, contentType := none, body := "Internal Server Error" }
    | some s => some { statusCode := 200, contentType := some "application/json", body := s }
  else if typeofIsString data then
    some { statusCode := 200, contentType := some "text/plain", body := payloadStrVal data }
  else if payloadIsBuffer data then
    some { statusCode := 200, contentType := some "application/octet-stream", body := "" }
  else
    none

/-! ## `res.paginate` (createPulseResponse) -/

structure PulsePagination where
  limit : Int
  page : Int
deriving Repr, DecidableEq

structure PaginateDescriptor where
  page : Int
  limit : Int
deriving Repr, DecidableEq

/-- The `results` record the source builds before responding. -/
structure PaginateResultObj where
  next : Option PaginateDescriptor
  previous : Option PaginateDescriptor
  results : List Json
deriving Repr

/-- JS `Array.prototype.slice` index clamping. -/
def jsSliceIdx (len : Nat) (i : Int) : Nat :=
  (if i < 0 then (len : Int) + i else i).toNat.min len

/-- JS `data.slice(s, e)`. -/
def jsSlice (data : List Json) (s e : Int) : List Json :=
  (data.take (jsSliceIdx data.length e)).drop (jsSliceIdx data.length s)

/-- The pagination record computed by `res.paginate`: `next` when
`endIndex < data.length`, `previous` when `startIndex > 0`, and the sliced
page in `results`. -/
def paginateCompute (data : List Json) (options : PulsePagination) :
    PaginateResultObj :=
  let limit := options.limit
  let page := options.page
  let startIndex := (page - 1) * limit
  let endIndex := page * limit
  { next := if endIndex < (data.length : Int) then some ⟨page + 1, limit⟩ else none
    previous := if startIndex > 0 then some ⟨page - 1, limit⟩ else none
    results := jsSlice data startIndex endIndex }

/-- What `res.paginate` actually ends the response with: it computes the
`results` record but then serialises `data` — the full input array — and
sends that as the body (the computed record is left unused, exactly as in
the source). -/
def paginateSend (data : List Json) (options : PulsePagination) : SendOutcome :=
  let _results := paginateCompute data options
  { statusCode := 200
    contentType := some "application/json"
    body := (Json.arr data).stringify }

/-- The JSON object the sliced-page record denotes, with fields in the
source's insertion order (`next`, `previous`, `results`); this is the
specification-side body the claim expects `paginate` to send. -/
def paginateObjJson (r : PaginateResultObj) : Json :=
  Json.obj
    ((match r.next with
      | some d => [("next", Json.obj [("page", Json.num d.page), ("limit", Json.num d.limit)])]
      | none => []) ++
     (match r.previous with
      | some d => [("previous", Json.obj [("page", Json.num d.page), ("limit", Json.num d.limit)])]
      | none => []) ++
     [("results", Json.arr r.results)])

/-! ## Server configuration (PulseConfig after constructor defaults) -/

/-- The configuration fields of `PulseServer` that affect dispatch, with
the constructor's `??` defaults already applied. -/
structure PulseConfig where
  apiVersion : String := "v1"
  usePulseLogger : Bool := true
  bodyFormat : String := "UNSET"
  disableParamMiddleware : Bool := false
  rateLimitEnabled : Bool := false
  rateLimitMaxRequests : Nat := 100
  rateLimitTimeMs : Int := 36000
  ipGateMethod : String := "NONE"
deriving Repr, DecidableEq

/-! ## Route registrations and the route table -/

/-- A `PulseRouteInfo`: handler (opaque identifier), pattern, and the
optional `paramRules` record (rule entries in insertion order). -/
structure PulseRouteInfo where
  handler : Nat
  pattern : PulseRoutePattern
  paramRules : Option (List (String × String)) := none
deriving Repr, DecidableEq

/-- The per-path method map (`Record<string, PulseRouteInfo[]>`), keys in
insertion order. -/
abbrev MethodMap := List (String × List PulseRouteInfo)

/-- The table `this.routes` (`Record<string, Record<string, PulseRouteInfo[]>>`),
keys in insertion order. -/
abbrev RouteTable := List (String × MethodMap)

def pushMethodInfo : MethodMap → String → PulseRouteInfo → MethodMap
  | [], method, info => [(method, [info])]
  | (m, infos) :: rest, method, info =>
    if m = method then (m, infos ++ [info]) :: rest
    else (m, infos) :: pushMethodInfo rest method info

def pushRouteInfo : RouteTable → String → String → PulseRouteInfo → RouteTable
  | [], versionedPath, method, info => [(versionedPath, [(method, [info])])]
  | (p, mm) :: rest, versionedPath, method, info =>
    if p = versionedPath then (p, pushMethodInfo mm method info) :: rest
    else (p, mm) :: pushRouteInfo rest versionedPath method info

/-- The options argument of `addRoute`. -/
structure PulseRouteOptions where
  apiVersion : Option String := none
  paramRules : Option (List (String × String)) := none
deriving Repr, DecidableEq

/-- The versioned path computed by `addRoute`:
`options && options.apiVersion ? options.apiVersion + path
 : this.config.apiVersion + path` (note the JS truthiness test: an empty
option string falls back to the configured version). -/
def versionedPathOf (configApiVersion : String) (options : Option PulseRouteOptions)
    (path : String) : String :=
  match options with
  | some o =>
    match o.apiVersion with
    | some v => if v = "" then configApiVersion ++ path else v ++ path
    | none => configApiVersion ++ path
  | none => configApiVersion ++ path

/-! ## Server state and registration -/

structure ServerState where
  config : PulseConfig
  routes : RouteTable := []
  blacklist : List String := []
  whitelist : List String := []
deriving Repr, DecidableEq

/-- The method `addRoute(method, path, handler, options)`: prefix the API version,
build the pattern from the versioned path, and push the registration under
`routes[versionedPath][method]`. -/
def addRoute (s : ServerState) (method path : String) (handler : Nat)
    (options : Option PulseRouteOptions) : ServerState :=
  let versionedPath := versionedPathOf s.config.apiVersion options path
  let pattern := mkPattern versionedPath
  let info : PulseRouteInfo :=
    { handler := handler, pattern := pattern,
      paramRules := options.bind PulseRouteOptions.paramRules }
  { s with routes := pushRouteInfo s.routes versionedPath method info }

/-- The method `setAPIVersion(version)`: mutates only `config.apiVersion`. -/
def setAPIVersion (s : ServerState) (version : String) : ServerState :=
  { s with config := { s.config with apiVersion := version } }

/-! ## The dispatch scan of the request callback -/

/-- The mutable state of the route-match loop: the accumulated `req.params`
and the selected handler. -/
structure DispatchState where
  params : List (String × String)
  matched : Option Nat
deriving Repr, DecidableEq

/-- The innermost `for (const routeInfo of ...)` loop: a pattern match
merges the bound parameters and breaks; otherwise a registration whose
literal versioned path equals `apiVersion + urlPath` becomes the selected
handler (without breaking, so a later literal match in the same list
overwrites it). -/
def scanInfos (apiVersion urlPath : String) :
    List PulseRouteInfo → DispatchState → DispatchState
  | [], st => st
  | info :: rest, st =>
    match matchRoute info.pattern urlPath with
    | some ps => { st with params := mergeParams st.params ps }
    | none =>
      let st2 :=
        if info.pattern.original = apiVersion ++ urlPath then
          { st with matched := some info.handler }
        else st
      scanInfos apiVersion urlPath rest st2

/-- The `for (const m in this.routes[pattern])` loop: the body runs when
`m === 'ALL'` or `m === req.method`, and the loop breaks once a handler is
selected. -/
def scanMethods (apiVersion method urlPath : String) :
    MethodMap → DispatchState → DispatchState
  | [], st => st
  | (m, infos) :: rest, st =>
    let st2 :=
      if m = "ALL" ∨ m = method then scanInfos apiVersion urlPath infos st else st
    if st2.matched.isSome then st2
    else scanMethods apiVersion method urlPath rest st2

/-- The `for (const pattern in this.routes)` loop, breaking once a handler
is selected. -/
def scanTable (apiVersion method urlPath : String) :
    RouteTable → DispatchState → DispatchState
  | [], st => st
  | (_, mm) :: rest, st =>
    let st2 := scanMethods apiVersion method urlPath mm st
    if st2.matched.isSome then st2
    else scanTable apiVersion method urlPath rest st2

/-! ## The parameter-type validator -/

/-- A JavaScript runtime value as inspected by `validateParamType`. -/
inductive JsValue where
  | undefined
  | str (s : String)
  | num (n : Int)
  | jsBool (b : Bool)
  | jsNull
  | array
  | object
deriving Repr, DecidableEq

/-- The method `validateParamType(value, expectedType)`: a `switch` on the expected
type tag testing the value's runtime type (`object` excludes `null` and
arrays); unknown tags fall to the default `false`. -/
def validateParamType (value : JsValue) (expectedType : String) : Bool :=
  if expectedType = "string" then
    match value with | .str _ => true | _ => false
  else if expectedType = "number" then
    match value with | .num _ => true | _ => false
  else if expectedType = "boolean" then
    match value with | .jsBool _ => true | _ => false
  else if expectedType = "array" then
    match value with | .array => true | _ => false
  else if expectedType = "object" then
    match value with | .object => true | _ => false
  else if expectedType = "any" then true
  else false

/-- The value `params[paramName]` as the JS runtime value the validator inspects:
parameters bound by `matchRoute` are always strings, a missing name is
`undefined`. -/
def paramJsValue (ps : List (String × String)) (name : String) : JsValue :=
  match lookupParam ps name with
  | some s => JsValue.str s
  | none => JsValue.undefined

/-- The first rule entry (in insertion order) whose parameter fails its
declared type. -/
def firstRuleViolation (rules : List (String × String))
    (ps : List (String × String)) : Option String :=
  match rules.find? (fun r => !validateParamType (paramJsValue ps r.1) r.2) with
  | some r => some r.1
  | none => none

/-- The scan of `validateParamsMiddleware`: walk every registration whose
method key equals the request method, re-match its pattern against the
path, and report the first violated rule; the scan does not stop at a
successfully validated route. -/
def findParamViolationInfos (urlPath : String) :
    List PulseRouteInfo → Option String
  | [] => none
  | info :: rest =>
    match matchRoute info.pattern urlPath, info.paramRules with
    | some ps, some rules =>
      (match firstRuleViolation rules ps with
       | some name => some name
       | none => findParamViolationInfos urlPath rest)
    | _, _ => findParamViolationInfos urlPath rest

def findParamViolationMethods (method urlPath : String) :
    MethodMap → Option String
  | [] => none
  | (m, infos) :: rest =>
    if m = method then
      (match findParamViolationInfos urlPath infos with
       | some name => some name
       | none => findParamViolationMethods method urlPath rest)
    else findParamViolationMethods method urlPath rest

def findParamViolation (routes : RouteTable) (method urlPath : String) :
    Option String :=
  match routes with
  | [] => none
  | (_, mm) :: rest =>
    match findParamViolationMethods method urlPath mm with
    | some name => some name
    | none => findParamViolation rest method urlPath

/-! ## The rate limiter -/

/-- A record of `PulseDB.rateLimitingDatastore`. -/
structure RateRecord where
  ip : Option String
  date : Int
deriving Repr, DecidableEq

inductive RateDecision where
  | allowed
  | limited
deriving Repr, DecidableEq

/-- One pass of `rateLimitMiddleware` against the store: count the records
for this address dated inside the trailing window; reject (and do not
record) when the count strictly exceeds the ceiling, otherwise record the
current request and proceed. -/
def rateLimitCheck (maxRequests : Nat) (timeMs now : Int)
    (store : List RateRecord) (ip : Option String) :
    RateDecision × List RateRecord :=
  let docs := store.filter (fun r => r.ip = ip && r.date > now - timeMs)
  if docs.length > maxRequests then (.limited, store)
  else (.allowed, store ++ [{ ip := ip, date := now }])

/-- A sequence of requests `(ip, time)` processed by the rate limiter,
threading the datastore. -/
def rateLimitRun (maxRequests : Nat) (timeMs : Int) :
    List (Option String × Int) → List RateRecord → List RateDecision
  | [], _ => []
  | (ip, now) :: rest, store =>
    match rateLimitCheck maxRequests timeMs now store ip with
    | (d, store2) => d :: rateLimitRun maxRequests timeMs rest store2

/-! ## The middleware pipeline -/

/-- The relevant fields of the incoming request. -/
structure PulseRequest where
  method : String
  urlPath : String
  query : Option String := none
  xff : Option String := none
  remoteAddress : Option String := none
  bodyParseOk : Bool := true
  params : List (String × String) := []
deriving Repr, DecidableEq

/-- JS truthiness of an optional string (`undefined` and `''` are falsy). -/
def jsTruthyStr : Option String → Bool
  | some s => !(s = "")
  | none => false

/-- The expression `req.headers['x-forwarded-for'] || req.connection.remoteAddress`,
reduced to the observations made of it (`!ip` tests truthiness again). -/
def clientIp (req : PulseRequest) : Option String :=
  if jsTruthyStr req.xff then req.xff
  else if jsTruthyStr req.remoteAddress then req.remoteAddress
  else none

/-- Library call `querystring.parse` on a raw query string: split on `&`, then each pair
at its first `=`. -/
def parseQueryString (q : String) : List (String × String) :=
  (splitChar '&' q).map (fun part =>
    match splitChar '=' part with
    | [] => ("", "")
    | [k] => (k, "")
    | k :: v :: rest => (k, rest.foldl (fun a b => a ++ "=" ++ b) v))

/-- The stage `paramMiddleware`: replace `req.params` with the parsed query when the
URL carries a (truthy) query string. -/
def paramTransform (req : PulseRequest) : PulseRequest :=
  if jsTruthyStr req.query then
    { req with params := parseQueryString (req.query.getD "") }
  else req

/-- State threaded through the middleware chain. -/
structure MwState where
  req : PulseRequest
  store : List RateRecord
deriving Repr, DecidableEq

/-- What one middleware does: call `next` (with possibly updated state),
terminate the response, or return without doing either. -/
inductive StepResult where
  | next (st : MwState)
  | stop (status : Nat) (body : String)
  | hang
deriving Repr, DecidableEq

/-- The built-in middleware stages, tagged. -/
inductive Stage where
  | logger
  | rateLimit
  | param
  | jsonBody
  | rawBody
  | textBody
  | validate
  | ipGate
deriving Repr, DecidableEq

/-- The global middleware list assembled by the `PulseServer` constructor,
in registration order: logger, rate limiter, query-parameter parser, body
parser by configured format, the parameter-type validator, and the IP
gate. -/
def stageList (cfg : PulseConfig) : List Stage :=
  (if cfg.usePulseLogger then [Stage.logger] else []) ++
  (if cfg.rateLimitEnabled then [Stage.rateLimit] else []) ++
  (if !cfg.disableParamMiddleware then [Stage.param] else []) ++
  (if cfg.bodyFormat = "JSON" then [Stage.jsonBody]
   else if cfg.bodyFormat = "RAW" then [Stage.rawBody]
   else if cfg.bodyFormat = "TEXT" then [Stage.textBody] else []) ++
  [Stage.validate] ++
  [Stage.ipGate]

/-- The stage `blackListMiddlware`: resolve the client address; return silently when
it is absent; 401 when blacklisted; otherwise continue. -/
def blackListMiddlware (blacklist : List String) (st : MwState) : StepResult :=
  match clientIp st.req with
  | none => .hang
  | some ip =>
    if blacklist.contains ip then .stop 401 "Unauthorized" else .next st

/-- The stage `whiteListMiddleware`: resolve the client address; return silently when
it is absent; continue when whitelisted; otherwise 401. -/
def whiteListMiddleware (whitelist : List String) (st : MwState) : StepResult :=
  match clientIp st.req with
  | none => .hang
  | some ip =>
    if whitelist.contains ip then .next st else .stop 401 "Unauthorized"

/-- One middleware stage, as wired in the constructor. -/
def runStage (cfg : PulseConfig) (routes : RouteTable)
    (blacklist whitelist : List String) (now : Int) :
    Stage → MwState → StepResult
  | .logger, st => .next st
  | .rateLimit, st =>
    (match rateLimitCheck cfg.rateLimitMaxRequests cfg.rateLimitTimeMs now
        st.store (clientIp st.req) with
     | (.limited, _) => .stop 429 "Rate limit exceeded"
     | (.allowed, store2) => .next { st with store := store2 })
  | .param, st => .next { st with req := paramTransform st.req }
  | .jsonBody, st =>
    if st.req.bodyParseOk then .next st else .stop 500 "Internal Server Error"
  | .rawBody, st =>
    if st.req.bodyParseOk then .next st else .stop 500 "Internal Server Error"
  | .textBody, st =>
    if st.req.bodyParseOk then .next st else .stop 500 "Internal Server Error"
  | .validate, st =>
    (match findParamViolation routes st.req.method st.req.urlPath with
     | some name => .stop 400 ("Invalid param type for " ++ name)
     | none => .next st)
  | .ipGate, st =>
    if cfg.ipGateMethod = "BLACKLIST" then blackListMiddlware blacklist st
    else if cfg.ipGateMethod = "WHITELIST" then whiteListMiddleware whitelist st
    else .next st

/-- The observable effect of a dispatched request. -/
inductive Outcome where
  | response (status : Nat) (body : String)
  | staticFile (contentType : String)
  | handlerRun (id : Nat) (params : List (String × String))
  | hang
deriving Repr, DecidableEq

/-- Consume the handler chain: each stage either advances, terminates the
response, or hangs; the terminal handler is the matched route handler or
the uniform `routeFallback` (400 Bad Request). -/
def runChain (cfg : PulseConfig) (routes : RouteTable)
    (blacklist whitelist : List String) (now : Int) :
    List Stage → MwState → Option Nat → Outcome
  | [], st, matched =>
    (match matched with
     | some h => .handlerRun h st.req.params
     | none => .response 400 "Bad Request")
  | stage :: rest, st, matched =>
    (match runStage cfg routes blacklist whitelist now stage st with
     | .next st2 => runChain cfg routes blacklist whitelist now rest st2 matched
     | .stop status body => .response status body
     | .hang => .hang)

/-- The handler `handleDashboardStatics`: 404 when the dashboard file is absent,
otherwise stream it with a content type chosen by extension (an existing
file with an unknown extension writes nothing). -/
def handleDashboardStatics (fsExists : Bool) (urlPath : String) : Outcome :=
  if !fsExists then .response 404 "404 Not Found\n"
  else if strEndsWith urlPath ".js" then .staticFile "text/javascript"
  else if strEndsWith urlPath ".css" then .staticFile "text/css"
  else if strEndsWith urlPath ".svg" then .staticFile "image/svg+xml"
  else .hang

/-- The dashboard-static interception at the top of the request callback. -/
def includesAnyStatic (urlPath : String) : Bool :=
  strIncludes urlPath "app.css" || strIncludes urlPath "app.js" ||
  strIncludes urlPath "favicon.ico" || strIncludes urlPath "logo_both.svg"

/-- The full request callback of the `PulseServer` constructor: intercept
dashboard statics, run the route-match loop to accumulate `req.params` and
select a handler, then execute the middleware chain followed by the matched
handler or the fallback. -/
def serverRespond (s : ServerState) (fsExists : Bool) (store : List RateRecord)
    (now : Int) (req : PulseRequest) : Outcome :=
  if includesAnyStatic req.urlPath then
    handleDashboardStatics fsExists req.urlPath
  else
    let scan := scanTable s.config.apiVersion req.method req.urlPath s.routes
      { params := req.params, matched := none }
    runChain s.config s.routes s.blacklist s.whitelist now (stageList s.config)
      { req := { req with params := scan.params }, store := store } scan.matched

/-! ## The Pulse socket connection registry -/

/-- The constant `WebSocket.OPEN`. -/
def WS_OPEN : Nat := 1

/-- A registered connection: transport state plus the `priority` and `keep`
fields the message handler may attach. -/
structure PulseConn where
  readyState : Nat
  priority : Option String := none
  keep : Option (List String) := none
deriving Repr, DecidableEq

/-- A JSON field of a parsed inbound control message: absent, a string, an
array of topics, or any other value (which only matters through its
truthiness). -/
inductive SockVal where
  | undef
  | str (s : String)
  | arr (xs : List String)
  | other (truthy : Bool)
deriving Repr, DecidableEq, BEq

def sockTruthy : SockVal → Bool
  | .undef => false
  | .str s => !(s = "")
  | .arr _ => true
  | .other t => t

def sockIsArray : SockVal → Bool
  | .arr _ => true
  | _ => false

/-- The `ws.on('message')` handler of `createPulseSocket`, restricted to its
effect on the sending connection's registry entry: when the parsed message
carries a truthy `priority` equal to `'HIGH'`, `'LOW'` or `'NORMAL'` AND a
truthy array-valued `keep`, both fields are replaced together; otherwise
the entry is untouched. -/
def wsMessageHandler (c : PulseConn) (priority keep : SockVal) : PulseConn :=
  if sockTruthy priority &&
      (decide (priority = SockVal.str "HIGH") || decide (priority = SockVal.str "LOW") ||
        decide (priority = SockVal.str "NORMAL")) then
    if sockTruthy keep && sockIsArray keep then
      { c with
        priority := (match priority with | .str s => some s | _ => c.priority)
        keep := (match keep with | .arr xs => some xs | _ => c.keep) }
    else c
  else c

/-- The method `pushMessageToSchemaSubscribers(typeName, message)`: the connections the
message is sent to — those whose transport is OPEN and whose `keep` list
(if any) contains the topic. -/
def pushMessageToSchemaSubscribers (conns : List PulseConn) (typeName : String) :
    List PulseConn :=
  conns.filter (fun c =>
    c.readyState == WS_OPEN &&
    (match c.keep with
     | some ks => ks.contains typeName
     | none => false))

/-- C6: while a connection is open, an inbound message whose parsed JSON
carries a recognized priority (`HIGH`/`LOW`/`NORMAL`) together with an
array-valued `keep` list replaces the connection's priority and topic set
together in one step; a message missing either field, carrying a non-array
`keep`, or carrying an unrecognized priority value leaves both fields
unchanged. -/
theorem C6_socket_control (c : PulseConn) (pv kv : SockVal) :
    (∀ s xs, pv = SockVal.str s → (s = "HIGH" ∨ s = "LOW" ∨ s = "NORMAL") →
      kv = SockVal.arr xs →
      wsMessageHandler c pv kv = { c with priority := some s, keep := some xs }) ∧
    (((∀ s, pv = SockVal.str s → ¬(s = "HIGH" ∨ s = "LOW" ∨ s = "NORMAL")) ∨
        (∀ xs, kv ≠ SockVal.arr xs)) →
      wsMessageHandler c pv kv = c) := by
  constructor
  · rintro s xs rfl (rfl | rfl | rfl) rfl <;> rfl
  · rintro (hs | hk)
    · cases pv with
      | undef => rfl
      | str s =>
        have h := hs s rfl
        push_neg at h
        obtain ⟨h1, h2, h3⟩ := h
        simp [wsMessageHandler, h1, h2, h3]
      | arr xs => rfl
      | other t =>
        cases t <;> rfl
    · have hk2 : sockIsArray kv = false := by
        cases kv with
        | arr xs => exact absurd rfl (hk xs)
        | undef => rfl
        | str s => rfl
        | other t => rfl
      unfold wsMessageHandler
      split
      · rw [hk2]
        simp
      · rfl

theorem C6_socket_control_witness :
    wsMessageHandler ⟨1, none, none⟩ (SockVal.str "HIGH") (SockVal.arr ["rooms"]) =
      ⟨1, some "HIGH", some ["rooms"]⟩ ∧
    wsMessageHandler ⟨1, some "HIGH", some ["rooms"]⟩ (SockVal.str "HIGH")
      SockVal.undef = ⟨1, some "HIGH", some ["rooms"]⟩ ∧
    wsMessageHandler ⟨1, some "HIGH", some ["rooms"]⟩ (SockVal.str "URGENT")
      (SockVal.arr ["x"]) = ⟨1, some "HIGH", some ["rooms"]⟩ :=
  ⟨(C6_socket_control ⟨1, none, none⟩ (SockVal.str "HIGH") (SockVal.arr ["rooms"])).1
      "HIGH" ["rooms"] rfl (Or.inl rfl) rfl,
   (C6_socket_control ⟨1, some "HIGH", some ["rooms"]⟩ (SockVal.str "HIGH")
      SockVal.undef).2 (Or.inr (fun xs h => by cases h)),
   (C6_socket_control ⟨1, some "HIGH", some ["rooms"]⟩ (SockVal.str "URGENT")
      (SockVal.arr ["x"])).2 (Or.inl (fun s h => by
        cases h
        decide))⟩

/-- C7: the topic broadcast sends the message exactly to those registered
connections whose transport state is OPEN and whose `keep` topic list
contains the given topic; in particular a connection with no topic list
(one that never sent a recognized control message) receives nothing. -/
theorem C7_broadcast_topic (conns : List PulseConn) (t : String) :
    (∀ c, c ∈ pushMessageToSchemaSubscribers conns t ↔
      (c ∈ conns ∧ c.readyState = WS_OPEN ∧ ∃ ks, c.keep = some ks ∧ t ∈ ks)) ∧
    (∀ c, c.keep = none → c ∉ pushMessageToSchemaSubscribers conns t) := by
  have hmem : ∀ c, c ∈ pushMessageToSchemaSubscribers conns t ↔
      (c ∈ conns ∧ c.readyState = WS_OPEN ∧ ∃ ks, c.keep = some ks ∧ t ∈ ks) := by
    intro c
    unfold pushMessageToSchemaSubscribers
    rw [List.mem_filter]
    constructor
    · rintro ⟨hc, hcond⟩
      refine ⟨hc, ?_, ?_⟩
      · cases hks : c.keep <;> rw [hks] at hcond <;> simp_all
      · cases hks : c.keep <;> rw [hks] at hcond <;> simp_all
    · rintro ⟨hc, hopen, ks, hks, hmem⟩
      refine ⟨hc, ?_⟩
      rw [hks]
      simp_all
  constructor
  · exact hmem
  · intro c hk hmemc
    have h := (hmem c).mp hmemc
    rw [hk] at h
    obtain ⟨-, -, ks, hks, -⟩ := h
    cases hks

theorem C7_broadcast_topic_witness :
    (⟨1, none, some ["a"]⟩ : PulseConn) ∈
      pushMessageToSchemaSubscribers
        [⟨1, none, some ["a"]⟩, ⟨1, none, none⟩, ⟨3, none, some ["a"]⟩] "a" ∧
    (⟨1, none, none⟩ : PulseConn) ∉
      pushMessageToSchemaSubscribers
        [⟨1, none, some ["a"]⟩, ⟨1, none, none⟩, ⟨3, none, some ["a"]⟩] "a" :=
  ⟨((C7_broadcast_topic
      [⟨1, none, some ["a"]⟩, ⟨1, none, none⟩, ⟨3, none, some ["a"]⟩] "a").1 _).mpr
      ⟨by decide, rfl, ⟨["a"], rfl, by decide⟩⟩,
   (C7_broadcast_topic
      [⟨1, none, some ["a"]⟩, ⟨1, none, none⟩, ⟨3, none, some ["a"]⟩] "a").2 _ rfl⟩

/-- C5 (counterexample): a raw byte buffer payload is caught by the first
branch of `send` (in JS `typeof Buffer === 'object'`), so it is serialised
as JSON with content type `application/json` — not sent as
`application/octet-stream` bytes as the claim states. -/
theorem C5_send_buffer_counterexample :
    send (SendPayload.buf []) =
      some { statusCode := 200, contentType := some "application/json",
             body := "\x7b\"type\":\"Buffer\",\"data\":[]\x7d" } ∧
    (send (SendPayload.buf [])).map SendOutcome.contentType ≠
      some (some "application/octet-stream") := by
  exact ⟨rfl, by decide⟩

/-- C5 (amended): `send(payload)` sets Content-Type `application/json` and
writes the JSON serialisation when the payload is an object or an array,
sets `text/plain` and writes the payload verbatim when it is a string, and
ends the response with status 500 when JSON serialisation fails; a raw byte
buffer, however, also takes the JSON branch (its `typeof` is `'object'`),
so it is written as the JSON form of the Buffer with Content-Type
`application/json`, and the `application/octet-stream` branch is
unreachable. -/
theorem C5_send_amended :
    (∀ s, send (SendPayload.str s) =
      some { statusCode := 200, contentType := some "text/plain", body := s }) ∧
    (∀ xs, send (SendPayload.arr (some xs)) =
      some { statusCode := 200, contentType := some "application/json",
             body := (Json.arr xs).stringify }) ∧
    (∀ fs, send (SendPayload.obj (some fs)) =
      some { statusCode := 200, contentType := some "application/json",
             body := (Json.obj fs).stringify }) ∧
    (send (SendPayload.arr none) =
      some { statusCode := 500, contentType := none, body := "Internal Server Error" }) ∧
    (send (SendPayload.obj none) =
      some { statusCode := 500, contentType := none, body := "Internal Server Error" }) ∧
    (∀ bytes, send (SendPayload.buf bytes) =
      some { statusCode := 200, contentType := some "application/json",
             body := (bufferJson bytes).stringify }) :=
  ⟨fun _ => rfl, fun _ => rfl, fun _ => rfl, rfl, rfl, fun _ => rfl⟩

/-- C2 (code bug): on `items = ["a"]` with `{limit: 20, page: 1}` the
computed record has no `previous`, no `next` (since `items.length ≤ 20`)
and `results = items` — exactly as the claim describes — but the body the
source actually sends is `JSON.stringify(data)`, the serialisation of the
full input array, not of the sliced-page record: the record is computed
and then never used. -/
theorem C2_paginate_code_bug :
    paginateCompute [Json.str "a"] ⟨20, 1⟩ =
      { next := none, previous := none, results := [Json.str "a"] } ∧
    paginateSend [Json.str "a"] ⟨20, 1⟩ =
      { statusCode := 200, contentType := some "application/json",
        body := "[\"a\"]" } ∧
    (paginateObjJson (paginateCompute [Json.str "a"] ⟨20, 1⟩)).stringify =
      "\x7b\"results\":[\"a\"]\x7d" ∧
    (paginateSend [Json.str "a"] ⟨20, 1⟩).body ≠
      (paginateObjJson (paginateCompute [Json.str "a"] ⟨20, 1⟩)).stringify ∧
    (paginateCompute (List.replicate 21 (Json.str "x")) ⟨20, 1⟩).next =
      some ⟨2, 20⟩ ∧
    (paginateCompute (List.replicate 21 (Json.str "x")) ⟨20, 1⟩).previous = none ∧
    (paginateCompute (List.replicate 21 (Json.str "x")) ⟨20, 1⟩).results =
      List.replicate 20 (Json.str "x") := by
  refine ⟨rfl, rfl, rfl, by decide, rfl, rfl, rfl⟩

/-! ## Pipeline helper lemmas -/

/-- No registration in the table carries parameter rules. -/
abbrev NoRules (routes : RouteTable) : Prop :=
  ∀ e ∈ routes, ∀ m ∈ e.2, ∀ info ∈ m.2, info.paramRules = none

theorem findParamViolationInfos_none (urlPath : String)
    (infos : List PulseRouteInfo) (h : ∀ info ∈ infos, info.paramRules = none) :
    findParamViolationInfos urlPath infos = none := by
  induction infos with
  | nil => rfl
  | cons info rest ih =>
    have hi := h info (List.mem_cons_self info rest)
    have hrest := ih (fun i hmem => h i (List.mem_cons_of_mem info hmem))
    unfold findParamViolationInfos
    rw [hi]
    cases matchRoute info.pattern urlPath <;> simpa using hrest

theorem findParamViolationMethods_none (method urlPath : String)
    (mm : MethodMap) (h : ∀ m ∈ mm, ∀ info ∈ m.2, info.paramRules = none) :
    findParamViolationMethods method urlPath mm = none := by
  induction mm with
  | nil => rfl
  | cons m rest ih =>
    have hm := h m (List.mem_cons_self m rest)
    have hrest := ih (fun m2 hmem => h m2 (List.mem_cons_of_mem m hmem))
    unfold findParamViolationMethods
    by_cases hq : m.1 = method
    · rw [if_pos hq, findParamViolationInfos_none urlPath m.2 hm, hrest]
    · rw [if_neg hq]
      exact hrest

theorem findParamViolation_none (routes : RouteTable) (method urlPath : String)
    (h : NoRules routes) : findParamViolation routes method urlPath = none := by
  induction routes with
  | nil => rfl
  | cons e rest ih =>
    have he := h e (List.mem_cons_self e rest)
    have hrest := ih (fun e2 hmem => h e2 (List.mem_cons_of_mem e hmem))
    unfold findParamViolation
    rw [findParamViolationMethods_none method urlPath e.2 he, hrest]

theorem clientIp_paramTransform (req : PulseRequest) :
    clientIp (paramTransform req) = clientIp req := by
  unfold paramTransform
  split <;> rfl

theorem paramTransform_method (req : PulseRequest) :
    (paramTransform req).method = req.method := by
  unfold paramTransform
  split <;> rfl

theorem paramTransform_urlPath (req : PulseRequest) :
    (paramTransform req).urlPath = req.urlPath := by
  unfold paramTransform
  split <;> rfl

/-! ## C1: versioned named-parameter routes and the type validator -/

/-- A server with a single registration: `GET '/login/:id'` with parameter
rule `{id: 'number'}`, under the given active API version. -/
def loginRouteServer (apiVersion : String) (h : Nat) : ServerState :=
  addRoute { config := { apiVersion := apiVersion } } "GET" "/login/:id" h
    (some { paramRules := some [("id", "number")] })

/-- C1 (counterexample): under the default active API version `v1`, the
stored template is `v1/login/:id`, whose first segment `v1` can never equal
the empty leading segment of the concrete path `/login/42`; `matchRoute`
therefore fails, no parameter is bound, the validator never fires, and the
request ends in the uniform fallback 400 `Bad Request` — not the
parameter-naming 400 the claim requires. -/
theorem C1_counterexample :
    matchRoute (mkPattern ("v1" ++ "/login/:id")) "/login/42" = none ∧
    (scanTable "v1" "GET" "/login/42" (loginRouteServer "v1" 0).routes
      { params := [], matched := none }).params = [] ∧
    serverRespond (loginRouteServer "v1" 0) false [] 0
      { method := "GET", urlPath := "/login/42" } =
      Outcome.response 400 "Bad Request" ∧
    serverRespond (loginRouteServer "v1" 0) false [] 0
      { method := "GET", urlPath := "/login/42" } ≠
      Outcome.response 400 "Invalid param type for id" := by
  refine ⟨by decide, by decide, by decide, by decide⟩

/-- C1 (amended): the claimed behaviour — binding `id` to the raw string
segment and the validator terminating with 400 naming the parameter —
holds exactly when the version-qualified template aligns segment-wise with
the concrete path; with an empty active version string the template is
`/login/:id`, and for any concrete segment `seg`, dispatching
`/login/<seg>` binds `params.id = seg` as a raw string and the `number`
rule rejects it with status 400 and body `Invalid param type for id`,
because the bound value is a string. -/
theorem C1_amended (h : Nat) (seg : String)
    (hsplit : splitChar '/' ("/login/" ++ seg) = ["", "login", seg])
    (hstatic : includesAnyStatic ("/login/" ++ seg) = false) :
    (scanTable "" "GET" ("/login/" ++ seg) (loginRouteServer "" h).routes
      { params := [], matched := none }).params = [("id", seg)] ∧
    serverRespond (loginRouteServer "" h) false [] 0
      { method := "GET", urlPath := "/login/" ++ seg } =
      Outcome.response 400 "Invalid param type for id" := by
  have hm : matchRoute ⟨"/login/:id", ["", "login", ":id"]⟩ ("/login/" ++ seg) =
      some [("id", seg)] := by
    unfold matchRoute
    rw [hsplit]
    simp [matchSegments, setParam, show startsWithColon "" = false from rfl,
      show startsWithColon "login" = false from rfl,
      show startsWithColon ":id" = true from rfl,
      show dropFirst ":id" = "id" from rfl]
  have hroutes : (loginRouteServer "" h).routes =
      [("/login/:id", [("GET",
        [(⟨h, ⟨"/login/:id", ["", "login", ":id"]⟩,
          some [("id", "number")]⟩ : PulseRouteInfo)])])] := rfl
  have hcfg : (loginRouteServer "" h).config = { apiVersion := "" } := rfl
  have hscan : scanTable "" "GET" ("/login/" ++ seg) (loginRouteServer "" h).routes
      { params := [], matched := none } =
      { params := [("id", seg)], matched := none } := by
    rw [hroutes]
    simp only [scanTable, scanMethods, scanInfos, hm]
    simp [mergeParams, setParam]
  have hviol : findParamViolation (loginRouteServer "" h).routes "GET"
      ("/login/" ++ seg) = some "id" := by
    rw [hroutes]
    simp only [findParamViolation, findParamViolationMethods,
      findParamViolationInfos, hm]
    simp [firstRuleViolation, paramJsValue, lookupParam, validateParamType]
  refine ⟨by rw [hscan], ?_⟩
  unfold serverRespond
  dsimp only
  rw [hstatic, hcfg, hscan]
  dsimp only
  rw [show stageList { apiVersion := "" } =
      [Stage.logger, Stage.param, Stage.validate, Stage.ipGate] from by decide]
  simp only [runChain, runStage, paramTransform, jsTruthyStr, Bool.false_eq_true,
    if_false, hviol]
  rfl

theorem C1_amended_witness :
    (scanTable "" "GET" ("/login/" ++ "42") (loginRouteServer "" 0).routes
      { params := [], matched := none }).params = [("id", "42")] ∧
    serverRespond (loginRouteServer "" 0) false [] 0
      { method := "GET", urlPath := "/login/" ++ "42" } =
      Outcome.response 400 "Invalid param type for id" :=
  C1_amended 0 "42" (by decide) (by decide)

/-! ## C3: the rate limiter -/

/-- C3 (counterexample): with `maxRequests = 100` and window `36000`, a run
of 101 requests from the same address at the same instant is fully allowed —
the 101st request still sees only 100 recorded requests, and
`docs.length > MAX_REQUESTS` is false, so it is not rejected with 429. -/
theorem C3_rate_limit_counterexample :
    rateLimitRun 100 36000 (List.replicate 101 ((some "ip"), (0 : Int))) [] =
      List.replicate 101 RateDecision.allowed := by decide

/-- C3 (amended): with `maxRequests = 100`, the first 101 requests from one
address inside the window all proceed; the 102nd within the window is the
first to be rejected — the middleware then responds 429 `Rate limit
exceeded` and does not continue the chain (and does not record the
request) — and a request from that address arriving strictly after the
window has elapsed proceeds again. -/
theorem C3_rate_limit_amended :
    rateLimitRun 100 36000
      (List.replicate 102 ((some "ip"), (0 : Int)) ++ [((some "ip"), (36001 : Int))]) [] =
      List.replicate 101 RateDecision.allowed ++
        [RateDecision.limited, RateDecision.allowed] ∧
    runStage { rateLimitEnabled := true } [] [] [] 0 Stage.rateLimit
      { req := { method := "GET", urlPath := "/x", xff := some "ip" },
        store := List.replicate 101 { ip := some "ip", date := 0 } } =
      StepResult.stop 429 "Rate limit exceeded" ∧
    runStage { rateLimitEnabled := true } [] [] [] 36001 Stage.rateLimit
      { req := { method := "GET", urlPath := "/x", xff := some "ip" },
        store := List.replicate 101 { ip := some "ip", date := 0 } } =
      StepResult.next
        { req := { method := "GET", urlPath := "/x", xff := some "ip" },
          store := List.replicate 101 { ip := some "ip", date := 0 } ++
            [{ ip := some "ip", date := 36001 }] } := by
  refine ⟨by decide, by decide, by decide⟩

/-! ## C8: the uniform fallback and the dashboard statics interception -/

/-- C8 (counterexample): a GET for `/favicon.ico` on a server with no
routes resolves to no registered route, yet the request is intercepted by
the dashboard-statics branch before routing and, with the file absent, is
answered 404 `404 Not Found` — not the uniform 400 fallback the claim
promises for every non-match. -/
theorem C8_fallback_counterexample :
    serverRespond { config := {} } false [] 0
      { method := "GET", urlPath := "/favicon.ico" } =
      Outcome.response 404 "404 Not Found\n" ∧
    serverRespond { config := {} } false [] 0
      { method := "GET", urlPath := "/favicon.ico" } ≠
      Outcome.response 400 "Bad Request" := by
  refine ⟨by decide, by decide⟩

/-- C8 (amended): for every request whose path does not contain one of the
dashboard-static substrings (`app.css`, `app.js`, `favicon.ico`,
`logo_both.svg`) and whose method and path select no registered handler,
the server — under the default configuration (rate limiting off, body
format unset, IP gate `NONE`) and with no parameter rules registered —
responds with the uniform fallback 400 `Bad Request`, never 404; a path
containing one of those substrings bypasses routing entirely and is
answered 404 when the dashboard file is absent. -/
theorem C8_fallback_amended (s : ServerState) (fsExists : Bool)
    (store : List RateRecord) (now : Int) (req : PulseRequest)
    (hstatic : includesAnyStatic req.urlPath = false)
    (hmatch : (scanTable s.config.apiVersion req.method req.urlPath s.routes
      { params := req.params, matched := none }).matched = none)
    (hnr : NoRules s.routes)
    (hrl : s.config.rateLimitEnabled = false)
    (hbody : s.config.bodyFormat = "UNSET")
    (hgate : s.config.ipGateMethod = "NONE") :
    serverRespond s fsExists store now req = Outcome.response 400 "Bad Request" := by
  have hv : ∀ m p, findParamViolation s.routes m p = none :=
    fun m p => findParamViolation_none s.routes m p hnr
  unfold serverRespond
  cases hl : s.config.usePulseLogger <;>
    cases hd : s.config.disableParamMiddleware <;>
      simp [stageList, hl, hd, hrl, hbody, hstatic, hgate, runChain, runStage,
        hv, hmatch]

theorem C8_fallback_amended_witness :
    serverRespond
      (addRoute { config := {} } "GET" "/hello" 5 none) false [] 0
      { method := "GET", urlPath := "/other" } =
      Outcome.response 400 "Bad Request" :=
  C8_fallback_amended (addRoute { config := {} } "GET" "/hello" 5 none)
    false [] 0 { method := "GET", urlPath := "/other" }
    (by decide) (by decide) (by decide) (by decide) (by decide) (by decide)

/-! ## C9: switching the active API version -/

theorem mkPattern_original (v : String) : (mkPattern v).original = v := rfl

/-- C9: registering the same declared path once under the default version
(`v1`) and once with the explicit option `apiVersion := "v2"`, then calling
`setAPIVersion "v2"`, makes every subsequent lookup of that path resolve to
the handler of the `v2` registration; and `setAPIVersion` touches only the
configuration, leaving the stored keys and patterns of previously
registered routes unchanged. -/
theorem C9_api_version_switch (p : String) (h1 h2 : Nat)
    (hm1 : matchRoute (mkPattern ("v1" ++ p)) p = none)
    (hm2 : matchRoute (mkPattern ("v2" ++ p)) p = none)
    (hne : ("v1" ++ p) ≠ ("v2" ++ p)) :
    (setAPIVersion (addRoute (addRoute { config := {} } "GET" p h1 none) "GET" p h2
        (some { apiVersion := some "v2" })) "v2").routes =
      (addRoute (addRoute { config := {} } "GET" p h1 none) "GET" p h2
        (some { apiVersion := some "v2" })).routes ∧
    (setAPIVersion (addRoute (addRoute { config := {} } "GET" p h1 none) "GET" p h2
        (some { apiVersion := some "v2" })) "v2").config.apiVersion = "v2" ∧
    (scanTable "v2" "GET" p
      (setAPIVersion (addRoute (addRoute { config := {} } "GET" p h1 none) "GET" p h2
        (some { apiVersion := some "v2" })) "v2").routes
      { params := [], matched := none }).matched = some h2 := by
  refine ⟨rfl, rfl, ?_⟩
  have hroutes : (setAPIVersion (addRoute (addRoute { config := {} } "GET" p h1 none)
      "GET" p h2 (some { apiVersion := some "v2" })) "v2").routes =
      [("v1" ++ p, [("GET", [(⟨h1, mkPattern ("v1" ++ p), none⟩ : PulseRouteInfo)])]),
       ("v2" ++ p, [("GET", [(⟨h2, mkPattern ("v2" ++ p), none⟩ : PulseRouteInfo)])])] := by
    simp only [setAPIVersion, addRoute, versionedPathOf, pushRouteInfo]
    simp [hne]
  rw [hroutes]
  simp only [scanTable, scanMethods, scanInfos, hm1, hm2, mkPattern_original]
  simp [hne]

theorem C9_api_version_switch_witness :
    (scanTable "v2" "GET" "/test"
      (setAPIVersion (addRoute (addRoute { config := {} } "GET" "/test" 0 none)
        "GET" "/test" 1 (some { apiVersion := some "v2" })) "v2").routes
      { params := [], matched := none }).matched = some 1 :=
  (C9_api_version_switch "/test" 0 1 (by decide) (by decide) (by decide)).2.2

/-! ## C10: the IP gate with no resolvable client address -/

theorem clientIp_update (req : PulseRequest) (ps : List (String × String)) :
    clientIp { req with params := ps } = clientIp req := rfl

/-- C10: when the IP gate is configured in BLACKLIST or WHITELIST mode and
the request carries neither an `x-forwarded-for` header nor a socket
remote address, the gate middleware returns without writing any response
and without calling the continuation — and hence the whole request pipeline
produces no outcome at all: no status is sent, no downstream handler runs,
the request is never answered. -/
theorem C10_ip_gate_silent (s : ServerState) (fsExists : Bool)
    (store : List RateRecord) (now : Int) (req : PulseRequest)
    (hgate : s.config.ipGateMethod = "BLACKLIST" ∨
      s.config.ipGateMethod = "WHITELIST")
    (hip : clientIp req = none)
    (hstatic : includesAnyStatic req.urlPath = false)
    (hrl : s.config.rateLimitEnabled = false)
    (hbody : s.config.bodyFormat = "UNSET")
    (hnr : NoRules s.routes) :
    (∀ st : MwState, clientIp st.req = none →
      runStage s.config s.routes s.blacklist s.whitelist now Stage.ipGate st =
        StepResult.hang) ∧
    serverRespond s fsExists store now req = Outcome.hang := by
  have hv : ∀ m p, findParamViolation s.routes m p = none :=
    fun m p => findParamViolation_none s.routes m p hnr
  have hgateStep : ∀ st : MwState, clientIp st.req = none →
      runStage s.config s.routes s.blacklist s.whitelist now Stage.ipGate st =
        StepResult.hang := by
    intro st hst
    rcases hgate with hg | hg <;>
      simp [runStage, hg, blackListMiddlware, whiteListMiddleware, hst]
  refine ⟨hgateStep, ?_⟩
  unfold serverRespond
  rcases hgate with hg | hg <;>
    cases hl : s.config.usePulseLogger <;>
      cases hd : s.config.disableParamMiddleware <;>
        simp [stageList, hl, hd, hrl, hbody, hstatic, hg, runChain, runStage, hv,
          blackListMiddlware, whiteListMiddleware, clientIp_update,
          clientIp_paramTransform, hip]

theorem C10_ip_gate_silent_witness :
    serverRespond { config := { ipGateMethod := "BLACKLIST" } } false [] 0
      { method := "GET", urlPath := "/x" } = Outcome.hang ∧
    runStage { ipGateMethod := "BLACKLIST" } [] [] [] 0 Stage.ipGate
      { req := { method := "GET", urlPath := "/x" }, store := [] } =
      StepResult.hang :=
  ⟨(C10_ip_gate_silent { config := { ipGateMethod := "BLACKLIST" } } false [] 0
      { method := "GET", urlPath := "/x" } (Or.inl rfl) rfl (by decide) rfl rfl
      (by decide)).2,
   (C10_ip_gate_silent { config := { ipGateMethod := "BLACKLIST" } } false [] 0
      { method := "GET", urlPath := "/x" } (Or.inl rfl) rfl (by decide) rfl rfl
      (by decide)).1
      { req := { method := "GET", urlPath := "/x" }, store := [] } rfl⟩

end Pulse
